/-
Verification of the statistical core of `app_tuned_recent_form_with_confidence.py`
(Premier League final-table predictor with bootstrap confidence intervals).

Shallow embedding conventions:
* A dataset row (one team-season line of `pl-tables-1993-2023.csv`) is `Row`;
  numeric statistics are embedded as exact rationals `ℚ` (Python floats are
  rationals), `season_end_year` as `ℤ`.
* The sklearn `RandomForestRegressor` cannot be embedded; it is abstracted as
  a pair of black-box parameters `train : List Row → M` and
  `predict : M → (Feature → ℝ) → ℝ`.  Every claim below is either independent
  of the model or quantifies over it.  Likewise `pandas.sample(replace=True,
  random_state=i)` is abstracted as a parameter `sample : List Row → ℕ → List Row`
  (dataset, seed ↦ resample).
* numpy's unseeded global RNG (used only by the jitter branch of
  `calculate_recent_form_score`, line 70 of the source) is made explicit as a
  stream parameter `jitter : ℕ → ℚ` (draw index ↦ drawn value).
* Exceptions are embedded with `Except PyError`; each `PyError` constructor
  names the concrete Python raise site it models.
-/
import Mathlib

namespace PLPredictor

/-- One row of the historical dataset: a team's season summary line.
Columns as used by the source: `team`, `season_end_year`, the seven base
feature columns, and the target column `position`. -/
structure Row where
  team : String
  season_end_year : ℤ
  points : ℚ
  gf : ℚ
  ga : ℚ
  gd : ℚ
  won : ℚ
  drawn : ℚ
  lost : ℚ
  position : ℚ
deriving DecidableEq

/-- The seven base feature columns of the module-level list
`features = ['points', 'gf', 'ga', 'gd', 'won', 'drawn', 'lost']`. -/
inductive Feature where
  | points | gf | ga | gd | won | drawn | lost
deriving DecidableEq

/-- Column lookup: the value a row holds in a base feature column. -/
def rowStat (f : Feature) (r : Row) : ℚ :=
  match f with
  | .points => r.points
  | .gf => r.gf
  | .ga => r.ga
  | .gd => r.gd
  | .won => r.won
  | .drawn => r.drawn
  | .lost => r.lost

/-- The module-level `features` list of the source, in source order. -/
def featuresList : List Feature :=
  [.points, .gf, .ga, .gd, .won, .drawn, .lost]

/-! ## TrendEstimator: `calculate_recent_form_score` (source lines 48-91) -/

/-- `max lo (min hi x)`: the clamping idiom `max(-3, min(3, form_score))` /
`max(1, min(20, adjusted_prediction))` used throughout the source. -/
def clampQ (lo hi x : ℚ) : ℚ := max lo (min hi x)

/-- Least-squares slope of the degree-1 fit of `ys` against `xs`
(`np.polyfit(xs, ys, 1)[0]`): `(n·Σxy − Σx·Σy) / (n·Σx² − (Σx)²)`.
With at least two distinct abscissae the denominator is nonzero and this is
exactly the `polyfit` slope; the source only reaches the fit after ensuring
(via the jitter branch) that the abscissae are generically distinct. -/
def slopeQ (xs ys : List ℚ) : ℚ :=
  let n : ℚ := xs.length
  let sx := xs.sum
  let sy := ys.sum
  let sxy := ((xs.zip ys).map (fun p => p.1 * p.2)).sum
  let sxx := (xs.map (fun x => x * x)).sum
  (n * sxy - sx * sy) / (n * sxx - sx * sx)

/-- `team_data[team_data['season_end_year'] >= (current_year - last_n_seasons)]`
with the default `last_n_seasons = 3` (source line 54). -/
def recentRows (team_data : List Row) (current_year : ℤ) : List Row :=
  team_data.filter (fun r => current_year - 3 ≤ r.season_end_year)

/-- `recent_data.sort_values('season_end_year')` (source line 60); pandas
`sort_values` uses a stable sort, modelled by `insertionSort` (stable). -/
def sortByYear (l : List Row) : List Row :=
  l.insertionSort (fun a b => a.season_end_year ≤ b.season_end_year)

/-- `years_normalized = recent_data['season_end_year'] - min(...)`
(source line 66). -/
def normYears (l : List Row) : List ℚ :=
  let m : ℤ := ((l.map (fun r => r.season_end_year)).min?).getD 0
  l.map (fun r => ((r.season_end_year - m : ℤ) : ℚ))

/-- The source's jitter branch condition (line 69): the selected recent rows
number at least two, yet `len(np.unique(years_normalized)) < 2`, so
`np.random.normal(0, 0.01, len)` noise is drawn from numpy's global RNG. -/
def usesJitter (team_data : List Row) (current_year : ℤ) : Prop :=
  2 ≤ (recentRows team_data current_year).length ∧
    (normYears (sortByYear (recentRows team_data current_year))).dedup.length < 2

instance (td : List Row) (y : ℤ) : Decidable (usesJitter td y) := by
  unfold usesJitter; infer_instance

/-- `calculate_recent_form_score(team_data, current_year)` (source lines
48-91).  `jitter k` is the `k`-th value numpy's global RNG would return for
`np.random.normal(0, 0.01, len)` in the jitter branch; the branch is the only
consumer of this randomness.  In exact arithmetic the `np.linalg.LinAlgError`
handler (line 87) is unreachable, so no exception path is modelled. -/
def calculate_recent_form_score (team_data : List Row) (current_year : ℤ)
    (jitter : ℕ → ℚ) : ℚ :=
  let recent := recentRows team_data current_year
  if recent.length < 2 then 0
  else
    let s := sortByYear recent
    let ys0 := normYears s
    let xs := if ys0.dedup.length < 2
      then ys0.enum.map (fun p => p.2 + jitter p.1)
      else ys0
    let points_trend := slopeQ xs (s.map (fun r => r.points))
    let position_trend := -(slopeQ xs (s.map (fun r => r.position)))
    let form_score := (points_trend / 5) * (6/10) + (position_trend / 2) * (4/10)
    clampQ (-3) 3 form_score

/-! ## FeatureAggregator: `weighted_average` (source lines 26-45) -/

/-- The exponential recency weight `np.exp(-year_diff / 1.05)` (source
line 34), as a function of the age `year_diff`. -/
noncomputable def ageWeight (year_diff : ℝ) : ℝ :=
  Real.exp (-(year_diff / 1.05))

/-- Weight of one row: age is `current_year - season_end_year` (line 31). -/
noncomputable def rowWeight (current_year : ℤ) (r : Row) : ℝ :=
  ageWeight ((current_year - r.season_end_year : ℤ) : ℝ)

/-- `np.average(team_data[feature], weights=team_data['weight'])` (line 39):
the weighted average of one base feature over a team's rows. -/
noncomputable def weightedAvgFeature (rows : List Row) (current_year : ℤ)
    (f : Feature) : ℝ :=
  ((rows.map (fun r => (rowStat f r : ℝ) * rowWeight current_year r)).sum) /
    ((rows.map (rowWeight current_year)).sum)

/-- The base-feature part of the `weighted_average` result: the mapping from
each base feature to its recency-weighted average (lines 37-39).  The
`recent_form_score` entry of the returned series is kept separate (it is
`calculate_recent_form_score`, line 42). -/
noncomputable def weightedAvgVec (rows : List Row) (current_year : ℤ) :
    Feature → ℝ :=
  fun f => weightedAvgFeature rows current_year f

/-! ## RankPredictor adjustment step (source lines 133-137, 216-219, 280-286) -/

/-- `max(1, min(20, predicted_pos + (-form_score * 0.05)))`: the momentum
adjustment and bound applied to every raw model output.  This four-line block
appears verbatim at the three prediction sites of the source. -/
noncomputable def adjustPrediction (predicted_pos : ℝ) (form_score : ℝ) : ℝ :=
  max 1 (min 20 (predicted_pos + (-form_score * (5/100))))

/-- The spec's wording of the same bound: `clamp(raw - 0.05*form, 1, 20)`. -/
noncomputable def clampSpec (x : ℝ) : ℝ := max 1 (min 20 x)

/-- One full prediction step: feed only the base features of the weighted
vector to the trained model, then apply the momentum adjustment.  Mirrors
source lines 274-286 (and the identical blocks at lines 128-137, 210-219). -/
noncomputable def predictStep {M : Type} (predict : M → (Feature → ℝ) → ℝ)
    (model : M) (baseVec : Feature → ℝ) (form_score : ℚ) : ℝ :=
  adjustPrediction (predict model baseVec) (form_score : ℝ)

/-! ## ConfidenceEstimator aggregation (source lines 141-157) -/

/-- Python exception identities relevant to the embedded control flow.  Each
constructor models one concrete raise site; `insufficientBootstrapSamples` is
the error *named by the spec* for an all-iterations-skipped bootstrap — no
code path of the source produces it, it exists here only so the spec's claim
about it can be stated. -/
inductive PyError where
  /-- `IndexError` raised by `np.percentile` on an empty sample list
  (source line 147 when `bootstrap_predictions == []`), and by
  `team_data['team'].iloc[0]` on an empty team frame (line 123). -/
  | indexError
  /-- The `ValueError("No historical data available before ...")` raised at
  source line 243; the spec calls this failure `EmptyTrainingSet`. -/
  | emptyTrainingSet
  /-- `KeyError` raised by `pd.merge(predicted_df, actual_df, on='Team')`
  (line 324) when no prediction was produced, so `predicted_df` has no
  `Team` column. -/
  | keyError
  /-- `ValueError` raised by `sklearn.metrics.r2_score` (line 338) when the
  merged comparison frame is empty. -/
  | metricError
  /-- The spec's designed error for a bootstrap in which every iteration was
  skipped.  Not raised anywhere in the source. -/
  | insufficientBootstrapSamples
deriving DecidableEq

/-- `np.mean`: sum divided by length (`[] ↦ 0/0 = 0`, standing in for the
`nan` that `np.mean([])` returns; the source never uses that value because
`np.percentile` raises first). -/
def mean {α : Type} [DivisionRing α] (xs : List α) : α :=
  xs.sum / (xs.length : α)

/-- `sorted(xs)`: numpy sorts the sample before interpolating percentiles. -/
def sortedVals {α : Type} [LinearOrder α] (xs : List α) : List α :=
  xs.insertionSort (fun a b => a ≤ b)

/-- Linear interpolation at fractional index `h` into the sorted list `ys`:
`ys[⌊h⌋] + (h − ⌊h⌋) · (ys[⌊h⌋+1] − ys[⌊h⌋])`, the `method='linear'` rule of
`np.percentile`.  Out-of-range neighbour access (only possible when the
fractional part is zero) falls back to the left value, matching numpy's index
clipping. -/
def interpAt {α : Type} [LinearOrderedField α] [FloorRing α]
    (ys : List α) (h : α) : α :=
  let i := (Int.floor h).toNat
  let lo := ys.getD i 0
  let hi := ys.getD (i + 1) lo
  lo + (h - ((Int.floor h : ℤ) : α)) * (hi - lo)

/-- `np.percentile(xs, q)` with the default linear interpolation:
interpolate at index `(q/100)·(n−1)` into the sorted data.  Total function;
the empty-input `IndexError` is modelled at the call site
(`bootAggregate`). -/
def percentileT {α : Type} [LinearOrderedField α] [FloorRing α]
    (xs : List α) (q : α) : α :=
  interpAt (sortedVals xs) ((q / 100) * ((xs.length : α) - 1))

/-- The confidence-interval record assembled at source lines 151-157.
`standard_error` (`np.std`, an irrational square root) is carried separately
by `bootStdError` below and is not consulted by any claim. -/
structure CI (α : Type) where
  prediction : α
  lower_bound : α
  upper_bound : α
  confidence_level : α
deriving DecidableEq

/-- `np.std(bootstrap_predictions)` (source line 149): the population
(ddof = 0) standard deviation of the collected predictions. -/
noncomputable def bootStdError (preds : List ℝ) : ℝ :=
  Real.sqrt (mean (preds.map (fun x => (x - mean preds) ^ 2)))

/-- The aggregation tail of `bootstrap_confidence_interval_recent_form`
(source lines 141-157): percentile bounds at `(α/2)·100` and `(1−α/2)·100`
with `α = 1 − confidence_level`, mean point estimate.  On an empty
prediction list `np.percentile` raises `IndexError` (after `np.mean` has
already produced `nan`), so the whole call fails. -/
def bootAggregate {α : Type} [LinearOrderedField α] [FloorRing α]
    (preds : List α) (confidence_level : α) : Except PyError (CI α) :=
  match preds with
  | [] => .error .indexError
  | _ :: _ =>
    let alpha := 1 - confidence_level
    .ok { prediction := mean preds
          lower_bound := percentileT preds (alpha / 2 * 100)
          upper_bound := percentileT preds ((1 - alpha / 2) * 100)
          confidence_level := confidence_level }

/-! ## ConfidenceEstimator loop: `bootstrap_confidence_interval_recent_form`
(source lines 94-157) -/

section Pipeline

variable {M : Type}
variable (train : List Row → M)
variable (predict : M → (Feature → ℝ) → ℝ)
variable (sample : List Row → ℕ → List Row)

/-- `team_bootstrap` of iteration `i`: the rows of the `i`-th resample
belonging to the target team `team_data['team'].iloc[0]` (source line 123).
Empty when `team_data` is empty (the `.iloc[0]` lookup then raises; that
error is modelled in `bootIter`). -/
def bootTeamRows (historical_data team_data : List Row) (i : ℕ) : List Row :=
  match team_data.head? with
  | none => []
  | some r0 => (sample historical_data i).filter (fun r => r.team == r0.team)

/-- One bootstrap iteration (source lines 111-139): resample the dataset with
seed `i`, retrain a fresh model, extract the target team's resampled rows;
skip (`none`) when the team is absent from the resample, otherwise produce
one adjusted prediction.  `jitter i` is the slice of numpy's global RNG the
iteration would consume in the trend fit's jitter branch. -/
noncomputable def bootIter (historical_data team_data : List Row)
    (prediction_year : ℤ) (jitter : ℕ → ℕ → ℚ) (i : ℕ) :
    Except PyError (Option ℝ) :=
  let boot := sample historical_data i
  let model := train boot
  match team_data.head? with
  | none => .error .indexError
  | some _ =>
    let tb := bootTeamRows sample historical_data team_data i
    if tb.length = 0 then .ok none
    else
      let form := calculate_recent_form_score tb prediction_year (jitter i)
      .ok (some (predictStep predict model (weightedAvgVec tb prediction_year) form))

/-- The `bootstrap_predictions` accumulator over a given list of iteration
indices: run the iterations in order, keeping the non-skipped predictions. -/
noncomputable def collectAux (historical_data team_data : List Row)
    (prediction_year : ℤ) (jitter : ℕ → ℕ → ℚ) :
    List ℕ → Except PyError (List ℝ)
  | [] => .ok []
  | i :: is =>
    (bootIter train predict sample historical_data team_data prediction_year
        jitter i).bind (fun o =>
      (collectAux historical_data team_data prediction_year jitter is).bind
        (fun rest => .ok (match o with | none => rest | some x => x :: rest)))

/-- `bootstrap_predictions` after the `for i in range(n_bootstrap)` loop
(source lines 109-139). -/
noncomputable def collectPreds (historical_data team_data : List Row)
    (prediction_year : ℤ) (n_bootstrap : ℕ) (jitter : ℕ → ℕ → ℚ) :
    Except PyError (List ℝ) :=
  collectAux train predict sample historical_data team_data prediction_year
    jitter (List.range n_bootstrap)

/-- `bootstrap_confidence_interval_recent_form` (source lines 94-157):
collect n_bootstrap adjusted predictions, then aggregate into a confidence
interval. -/
noncomputable def bootstrap_confidence_interval_recent_form
    (historical_data team_data : List Row) (prediction_year : ℤ)
    (n_bootstrap : ℕ) (confidence_level : ℝ) (jitter : ℕ → ℕ → ℚ) :
    Except PyError (CI ℝ) :=
  (collectPreds train predict sample historical_data team_data prediction_year
      n_bootstrap jitter).bind
    (fun preds => bootAggregate preds confidence_level)

/-! ## TemporalValidator: `cross_validate_time_series` (source lines 160-228) -/

/-- One chronological validation fold boundary of the `cv_periods` list. -/
structure Period where
  train_end : ℤ
  test_start : ℤ
  test_end : ℤ
deriving DecidableEq

/-- The three folds hardcoded at source lines 166-170. -/
def cvPeriods : List Period :=
  [⟨2013, 2014, 2016⟩, ⟨2016, 2017, 2019⟩, ⟨2019, 2020, 2023⟩]

/-- `train_data = data[data['season_end_year'] <= period['train_end']]`
(source line 176). -/
def foldTrain (data : List Row) (p : Period) : List Row :=
  data.filter (fun r => r.season_end_year ≤ p.train_end)

/-- `test_data` of a fold: rows with `test_start <= season_end_year <=
test_end` (source lines 177-178). -/
def foldTest (data : List Row) (p : Period) : List Row :=
  data.filter (fun r =>
    p.test_start ≤ r.season_end_year ∧ r.season_end_year ≤ p.test_end)

/-- `team_historical = train_data[train_data['team'] == team]` (source
line 203): the training-window rows of one team in one fold. -/
def foldTeamHist (data : List Row) (p : Period) (t : String) : List Row :=
  (foldTrain data p).filter (fun r => r.team == t)

/-- The model trained for a fold: fit on the fold's training rows only
(source lines 188-189). -/
noncomputable def foldModel (data : List Row) (p : Period) : M :=
  train (foldTrain data p)

/-- The base-feature vector built for a test team of a fold, computed from
its training-window rows only (source line 209). -/
noncomputable def foldTeamVec (data : List Row) (p : Period) (t : String)
    (reference_year : ℤ) : Feature → ℝ :=
  weightedAvgVec (foldTeamHist data p t) reference_year

/-- `pandas.Series.unique`: distinct values in order of first appearance
(source line 192). -/
def uniqueFirst (l : List String) : List String :=
  l.foldl (fun acc t => if t ∈ acc then acc else acc ++ [t]) []

/-- `sklearn.metrics.r2_score`: `1 − SS_res/SS_tot`, with sklearn's
conventions for a constant target (`SS_tot = 0` gives `1.0` when `SS_res = 0`
and `0.0` otherwise). -/
noncomputable def r2score (actuals preds : List ℝ) : ℝ :=
  let ybar : ℝ := mean actuals
  let ssres : ℝ := ((actuals.zip preds).map (fun q => (q.1 - q.2) ^ 2)).sum
  let sstot : ℝ := (actuals.map (fun yv => (yv - ybar) ^ 2)).sum
  if sstot = 0 then (if ssres = 0 then 1 else 0) else 1 - ssres / sstot

/-- One fold of `cross_validate_time_series` (source lines 174-226): skip the
fold (`none`) when its training or test slice is empty or no usable
prediction was made; otherwise produce the fold's r² score. -/
noncomputable def foldScore (jitter : ℕ → ℚ) (data : List Row) (p : Period) :
    Option ℝ :=
  if (foldTrain data p).length = 0 ∨ (foldTest data p).length = 0 then none
  else
    let model := foldModel train data p
    let teams := uniqueFirst ((foldTest data p).map (fun r => r.team))
    let pairs := teams.flatMap (fun t =>
      ((foldTest data p).filter (fun r => r.team == t)).filterMap (fun row =>
        if (foldTeamHist data p t).length = 0 then none
        else
          let form := calculate_recent_form_score (foldTeamHist data p t)
            row.season_end_year jitter
          some (predictStep predict model
                  (foldTeamVec data p t row.season_end_year) form,
                (row.position : ℝ))))
    if pairs.length = 0 then none
    else some (r2score (pairs.map (fun q => q.2)) (pairs.map (fun q => q.1)))

/-- `cross_validate_time_series(data, features, target, prediction_year)`
(source lines 160-228).  The `features` and `target` arguments of the source
are the fixed module-level column lists and are baked into the embedding;
`prediction_year` is kept because the source keeps it (it is never read).
Returns the mean of the per-fold scores, or `0.0` if every fold was
skipped. -/
noncomputable def cross_validate_time_series (data : List Row)
    (prediction_year : ℤ) (jitter : ℕ → ℚ) : ℝ :=
  let scores := cvPeriods.filterMap (foldScore train predict jitter data)
  match scores with
  | [] => 0
  | _ :: _ => mean scores

/-! ## RankingAssembler (source lines 312-317) -/

/-- `predictions.sort(key=lambda x: x['Predicted Position'])` (source line
313): Python's stable ascending sort by predicted position, modelled by the
stable `insertionSort`. -/
def sortPreds {α : Type} [LinearOrder α] (l : List (String × α)) :
    List (String × α) :=
  l.insertionSort (fun a b => a.2 ≤ b.2)

/-- Lines 312-317: sort by predicted position, then overwrite each team's
`Predicted Position` with its 1-based rank in sorted order. -/
def assignRanks {α : Type} [LinearOrder α] (l : List (String × α)) :
    List (String × ℕ) :=
  (sortPreds l).enum.map (fun q => (q.2.1, q.1 + 1))

/-! ## Driver: `compare_predictions_with_confidence` (source lines 238-414) -/

/-- One row of the returned `comparison_df` (the columns the source computes
at lines 319-331; console rendering and the csv write are external
collaborators and not modelled). -/
structure CompRow where
  team : String
  predicted_rank : ℕ
  actual_position : ℤ
  position_difference : ℤ
  ci : CI ℝ
  interval_width : ℝ

/-- The per-team loop of `compare_predictions_with_confidence` (source lines
257-310): skip teams with no historical rows, otherwise compute the team's
bootstrap interval and adjusted point prediction.  Returns the `predictions`
and `confidence_intervals` accumulators in input order.  `jb` and `jm` model
the global-RNG jitter draws available to the bootstrap iterations and to the
main trend computation; no claim depends on how the single global stream is
split across call sites. -/
noncomputable def teamLoop (historical_data : List Row) (prediction_year : ℤ)
    (confidence_level : ℝ) (jb : ℕ → ℕ → ℚ) (jm : ℕ → ℚ) (mainModel : M) :
    List String → Except PyError (List (String × ℝ) × List (String × CI ℝ))
  | [] => .ok ([], [])
  | t :: ts =>
    let team_data := historical_data.filter (fun r => r.team == t)
    if team_data.length = 0 then
      teamLoop historical_data prediction_year confidence_level jb jm
        mainModel ts
    else
      (bootstrap_confidence_interval_recent_form train predict sample
          historical_data team_data prediction_year 100 confidence_level
          jb).bind (fun ci =>
        (teamLoop historical_data prediction_year confidence_level jb jm
            mainModel ts).bind (fun rest =>
          let form := calculate_recent_form_score team_data prediction_year jm
          let adjusted := predictStep predict mainModel
            (weightedAvgVec team_data prediction_year) form
          .ok ((t, adjusted) :: rest.1, (t, ci) :: rest.2)))

/-- `compare_predictions_with_confidence` (source lines 238-414), restricted
to its computational core: filter the strict-past training slice, abort with
the line-243 `ValueError` when it is empty, retrain the main model on it, run
the per-team loop, assemble unique ranks, and inner-join the ranked
predictions with the supplied actual standings and the interval records.
The `pd.merge` at line 324 raises when no prediction was produced
(`keyError`), and the `r2_score` at line 338 raises when the merged frame is
empty (`metricError`); the printed r² and cross-validation values and the
csv write do not affect the returned frame. -/
noncomputable def compare_predictions_with_confidence (data : List Row)
    (teams : List String) (actual_standings : List (String × ℤ))
    (prediction_year : ℤ) (confidence_level : ℝ)
    (jb : ℕ → ℕ → ℚ) (jm : ℕ → ℚ) : Except PyError (List CompRow) :=
  let historical_data :=
    data.filter (fun r => r.season_end_year < prediction_year)
  if historical_data.length = 0 then .error .emptyTrainingSet
  else
    let mainModel := train historical_data
    (teamLoop train predict sample historical_data prediction_year
        confidence_level jb jm mainModel teams).bind (fun res =>
      let ranked := assignRanks res.1
      if ranked.length = 0 then .error .keyError
      else
        let merged := ranked.flatMap (fun tr =>
          (actual_standings.filter (fun a => a.1 == tr.1)).flatMap (fun a =>
            (res.2.filter (fun c => c.1 == tr.1)).map (fun c =>
              { team := tr.1
                predicted_rank := tr.2
                actual_position := a.2
                position_difference := (tr.2 : ℤ) - a.2
                ci := c.2
                interval_width := c.2.upper_bound - c.2.lower_bound })))
        if merged.length = 0 then .error .metricError
        else .ok merged)

end Pipeline

/-! ## Helper lemmas -/

theorem le_clampQ (lo hi x : ℚ) : lo ≤ clampQ lo hi x := le_max_left _ _

theorem clampQ_le {lo hi : ℚ} (x : ℚ) (h : lo ≤ hi) : clampQ lo hi x ≤ hi :=
  max_le h (min_le_left _ _)

theorem sum_rowWeight_pos (y : ℤ) :
    ∀ {rows : List Row}, rows ≠ [] → 0 < (rows.map (rowWeight y)).sum := by
  intro rows h
  cases rows with
  | nil => exact absurd rfl h
  | cons r rs =>
    simp only [List.map_cons, List.sum_cons]
    refine add_pos_of_pos_of_nonneg (Real.exp_pos _) ?_
    refine List.sum_nonneg ?_
    intro x hx
    obtain ⟨a, _, rfl⟩ := List.mem_map.1 hx
    exact (Real.exp_pos _).le

theorem getD_succ_sub_nonneg {α : Type} [LinearOrder α] [Zero α]
    {ys : List α} (hs : ys.Sorted (fun a b => a ≤ b)) (i : ℕ) :
    ys.getD i 0 ≤ ys.getD (i + 1) (ys.getD i 0) := by
  by_cases hlt : i + 1 < ys.length
  · have hi : i < ys.length := Nat.lt_of_succ_lt hlt
    rw [List.getD_eq_getElem ys _ hlt, List.getD_eq_getElem ys _ hi]
    have := hs.rel_get_of_le
      (show (⟨i, hi⟩ : Fin ys.length) ≤ ⟨i + 1, hlt⟩ from Nat.le_succ i)
    simpa using this
  · rw [List.getD_eq_default _ _ (Nat.le_of_not_lt hlt)]

theorem getD_sorted_mono {α : Type} [LinearOrder α] [Zero α]
    {ys : List α} (hs : ys.Sorted (fun a b => a ≤ b)) {i j : ℕ}
    (hij : i ≤ j) (hj : j < ys.length) : ys.getD i 0 ≤ ys.getD j 0 := by
  have hi : i < ys.length := Nat.lt_of_le_of_lt hij hj
  rw [List.getD_eq_getElem ys _ hi, List.getD_eq_getElem ys _ hj]
  have := hs.rel_get_of_le (show (⟨i, hi⟩ : Fin ys.length) ≤ ⟨j, hj⟩ from hij)
  simpa using this

theorem interpAt_ge {α : Type} [LinearOrderedField α] [FloorRing α]
    {ys : List α} (hs : ys.Sorted (fun a b => a ≤ b)) (h : α) :
    ys.getD (Int.floor h).toNat 0 ≤ interpAt ys h := by
  simp only [interpAt]
  have hfrac : 0 ≤ h - ((⌊h⌋ : ℤ) : α) := sub_nonneg.2 (Int.floor_le h)
  have hdiff := getD_succ_sub_nonneg hs (Int.floor h).toNat
  nlinarith

theorem interpAt_le {α : Type} [LinearOrderedField α] [FloorRing α]
    {ys : List α} (hs : ys.Sorted (fun a b => a ≤ b)) (h : α) :
    interpAt ys h ≤ ys.getD ((Int.floor h).toNat + 1)
      (ys.getD (Int.floor h).toNat 0) := by
  simp only [interpAt]
  have hfrac : 0 ≤ h - ((⌊h⌋ : ℤ) : α) := sub_nonneg.2 (Int.floor_le h)
  have hfrac1 : h - ((⌊h⌋ : ℤ) : α) < 1 := by
    have := Int.lt_floor_add_one h
    push_cast at this ⊢
    linarith
  have hdiff := getD_succ_sub_nonneg hs (Int.floor h).toNat
  nlinarith

theorem interpAt_mono {α : Type} [LinearOrderedField α] [FloorRing α]
    {ys : List α} (hs : ys.Sorted (fun a b => a ≤ b)) (hne : ys ≠ [])
    {h1 h2 : α} (h10 : 0 ≤ h1) (h12 : h1 ≤ h2)
    (h2n : h2 ≤ (ys.length : α) - 1) : interpAt ys h1 ≤ interpAt ys h2 := by
  have h20 : 0 ≤ h2 := le_trans h10 h12
  have hlen : 0 < ys.length := List.length_pos.2 hne
  have hf1nn : (0 : ℤ) ≤ ⌊h1⌋ := Int.le_floor.2 (by exact_mod_cast h10)
  have hf2nn : (0 : ℤ) ≤ ⌊h2⌋ := Int.le_floor.2 (by exact_mod_cast h20)
  have hff : ⌊h1⌋ ≤ ⌊h2⌋ := Int.floor_le_floor h12
  have hf2top : ⌊h2⌋ ≤ (ys.length : ℤ) - 1 := by
    have hcast : ((ys.length : α) - 1) = (((ys.length : ℤ) - 1 : ℤ) : α) := by
      push_cast; ring
    have h := Int.floor_le_floor h2n
    rwa [hcast, Int.floor_intCast] at h
  have hi2lt : (⌊h2⌋).toNat < ys.length := by omega
  rcases Nat.eq_or_lt_of_le (show (⌊h1⌋).toNat ≤ (⌊h2⌋).toNat by omega)
    with heq | hlt
  · have hfeq : ⌊h2⌋ = ⌊h1⌋ := by omega
    simp only [interpAt, hfeq, ← heq]
    have hdiff := getD_succ_sub_nonneg hs (⌊h1⌋).toNat
    nlinarith
  · have hin : (⌊h1⌋).toNat + 1 < ys.length := by omega
    have s1 := interpAt_le hs h1
    have s2 : ys.getD ((⌊h1⌋).toNat + 1) (ys.getD (⌊h1⌋).toNat 0)
        ≤ ys.getD (⌊h2⌋).toNat 0 := by
      rw [List.getD_eq_getElem ys _ hin, List.getD_eq_getElem ys _ hi2lt,
        ← List.getD_eq_getElem ys 0 hin, ← List.getD_eq_getElem ys 0 hi2lt]
      exact getD_sorted_mono hs hlt hi2lt
    have s3 : ys.getD (Int.floor h2).toNat 0 ≤ interpAt ys h2 :=
      interpAt_ge hs h2
    linarith

theorem percentileT_mono {α : Type} [LinearOrderedField α] [FloorRing α]
    {xs : List α} (hne : xs ≠ []) {q1 q2 : α} (hq0 : 0 ≤ q1)
    (hq12 : q1 ≤ q2) (hq100 : q2 ≤ 100) :
    percentileT xs q1 ≤ percentileT xs q2 := by
  unfold percentileT
  have hsort : (sortedVals xs).Sorted (fun a b => a ≤ b) :=
    List.sorted_insertionSort _ xs
  have hlen : (sortedVals xs).length = xs.length :=
    (List.perm_insertionSort _ xs).length_eq
  have hsne : sortedVals xs ≠ [] := by
    intro h
    apply hne
    have := hlen
    rw [h] at this
    exact List.length_eq_zero.1 this.symm
  have hn1 : (1 : α) ≤ (xs.length : α) := by
    exact_mod_cast Nat.one_le_iff_ne_zero.2
      (fun h => hne (List.length_eq_zero.1 h))
  have hnn : (0 : α) ≤ (xs.length : α) - 1 := by linarith
  apply interpAt_mono hsort hsne
  · exact mul_nonneg (by positivity) hnn
  · exact mul_le_mul_of_nonneg_right (by linarith [hq12]) hnn
  · rw [hlen]
    calc q2 / 100 * ((xs.length : α) - 1)
        ≤ 1 * ((xs.length : α) - 1) := by
          refine mul_le_mul_of_nonneg_right ?_ hnn
          linarith
      _ = (xs.length : α) - 1 := one_mul _

theorem interpAt_natCast {α : Type} [LinearOrderedField α] [FloorRing α]
    (ys : List α) (k : ℕ) : interpAt ys (k : α) = ys.getD k 0 := by
  simp only [interpAt, Int.floor_natCast, Int.toNat_natCast]
  simp

/-! ## Claims -/

/-- C1 (amended): for every non-degenerate bootstrap run (a nonempty list of
collected adjusted predictions) with `confidence_level ∈ [0, 1]`, the
aggregation step succeeds and returns the interval whose point estimate is
the mean of the collected predictions and whose bounds are the `(α/2)` and
`(1−α/2)` percentiles with `α = 1 − confidence_level`, and the interval
width is non-negative (`lower_bound ≤ upper_bound`).  The original claim's
`lower_bound ≤ point_estimate ≤ upper_bound` does *not* hold in general
(see the counterexample): the mean of a skewed sample can fall outside its
interior percentile range. -/
theorem bootstrap_interval_aggregate {α : Type} [LinearOrderedField α]
    [FloorRing α] (preds : List α) (c : α) (hne : preds ≠ [])
    (hc0 : 0 ≤ c) (hc1 : c ≤ 1) :
    bootAggregate preds c = .ok
        { prediction := mean preds
          lower_bound := percentileT preds ((1 - c) / 2 * 100)
          upper_bound := percentileT preds ((1 - (1 - c) / 2) * 100)
          confidence_level := c }
      ∧ percentileT preds ((1 - c) / 2 * 100)
          ≤ percentileT preds ((1 - (1 - c) / 2) * 100) := by
  constructor
  · cases preds with
    | nil => exact absurd rfl hne
    | cons a l => rfl
  · refine percentileT_mono hne ?_ ?_ ?_
    · nlinarith
    · nlinarith
    · nlinarith

/-- Witness for C1 (amended): the aggregation evaluated on the concrete
two-prediction sample `[1, 2]` at the source's confidence level `0.95`. -/
theorem bootstrap_interval_aggregate_witness :
    bootAggregate [(1 : ℚ), 2] (95 / 100) = .ok
        { prediction := mean [(1 : ℚ), 2]
          lower_bound := percentileT [(1 : ℚ), 2] ((1 - 95 / 100) / 2 * 100)
          upper_bound :=
            percentileT [(1 : ℚ), 2] ((1 - (1 - 95 / 100) / 2) * 100)
          confidence_level := 95 / 100 }
      ∧ percentileT [(1 : ℚ), 2] ((1 - 95 / 100) / 2 * 100)
          ≤ percentileT [(1 : ℚ), 2] ((1 - (1 - 95 / 100) / 2) * 100) :=
  bootstrap_interval_aggregate [(1 : ℚ), 2] (95 / 100) (by simp)
    (by norm_num) (by norm_num)

/-- The concrete skewed prediction sample for the C1 counterexample: forty
predictions clamped at position 1 and one at position 20 (all values lie in
`[1, 20]`, as collected adjusted predictions do). -/
def skewedPreds : List ℚ := List.replicate 40 1 ++ [20]

/-- C1 counterexample: on `skewedPreds` at confidence level `0.95` the code
returns the interval `[1, 1]` with point estimate `60/41 ≈ 1.46`, so
`point_estimate ≤ upper_bound` — and hence the claimed
`lower_bound ≤ point_estimate ≤ upper_bound` — fails. -/
theorem bootstrap_interval_counterexample :
    bootAggregate skewedPreds (95 / 100) = .ok
        { prediction := 60 / 41, lower_bound := 1, upper_bound := 1,
          confidence_level := 95 / 100 }
      ∧ ¬ ((60 : ℚ) / 41 ≤ 1) := by
  have hlist : skewedPreds = 1 :: (List.replicate 39 1 ++ [20]) := rfl
  have hsorted : sortedVals skewedPreds = skewedPreds :=
    List.Sorted.insertionSort_eq (by decide)
  have hlen : skewedPreds.length = 41 := by decide
  constructor
  · rw [hlist]
    simp only [bootAggregate]
    rw [← hlist]
    have hmean : mean skewedPreds = 60 / 41 := by
      rw [hlist]
      norm_num [mean, List.sum_append, List.sum_replicate, nsmul_eq_mul,
        List.length_append, List.length_replicate]
    have hlow : percentileT skewedPreds ((1 - 95 / 100) / 2 * 100) = 1 := by
      unfold percentileT
      rw [hsorted, hlen]
      rw [show ((1 - 95 / 100 : ℚ) / 2 * 100) / 100 * ((41 : ℕ) - 1)
        = ((1 : ℕ) : ℚ) by norm_num]
      rw [interpAt_natCast]
      decide
    have hhigh : percentileT skewedPreds ((1 - (1 - 95 / 100) / 2) * 100)
        = 1 := by
      unfold percentileT
      rw [hsorted, hlen]
      rw [show ((1 - (1 - 95 / 100 : ℚ) / 2) * 100) / 100 * ((41 : ℕ) - 1)
        = ((39 : ℕ) : ℚ) by norm_num]
      rw [interpAt_natCast]
      decide
    rw [hmean, hlow, hhigh]
  · norm_num

/-- C3: for every trained model and every aggregated feature vector, the
published prediction is `clamp(raw_position − 0.05·recent_form_score, 1, 20)`
where `raw_position` is the model's output on the base features only (the
`Feature` type contains exactly the seven base columns, so
`recent_form_score` cannot reach the model), and the adjusted position lies
in `[1, 20]` whatever the raw output and the momentum adjustment are. -/
theorem adjusted_prediction_clamped {M : Type}
    (predict : M → (Feature → ℝ) → ℝ) (model : M) (baseVec : Feature → ℝ)
    (form_score : ℚ) :
    predictStep predict model baseVec form_score
        = clampSpec (predict model baseVec - (5 / 100) * (form_score : ℝ))
      ∧ 1 ≤ predictStep predict model baseVec form_score
      ∧ predictStep predict model baseVec form_score ≤ 20 := by
  unfold predictStep adjustPrediction clampSpec
  refine ⟨?_, le_max_left _ _, max_le (by norm_num) (min_le_left _ _)⟩
  have h : predict model baseVec + -(form_score : ℝ) * (5 / 100)
      = predict model baseVec - 5 / 100 * (form_score : ℝ) := by ring
  rw [h]

/-- C10: `cross_validate_time_series` never reads its `prediction_year`
argument; the fold boundaries are the fixed `cvPeriods`, so the returned
score is identical for any two prediction years. -/
theorem cross_validate_ignores_prediction_year {M : Type}
    (train : List Row → M) (predict : M → (Feature → ℝ) → ℝ)
    (jitter : ℕ → ℚ) (data : List Row) (y1 y2 : ℤ) :
    cross_validate_time_series train predict data y1 jitter
      = cross_validate_time_series train predict data y2 jitter := rfl

/-- C4 (amended): the recent-form score selects exactly the rows with
`season_end_year ≥ reference_year − 3`; with fewer than two selected rows it
is exactly `0`; with at least two selected rows *spanning at least two
distinct years* it equals the clamped weighted slope combination
`clamp(0.6·(points_slope/5) + 0.4·(−position_slope/2), −3, 3)`; and in every
case (including the random-jitter branch taken when all selected years
coincide) the result lies in `[−3, 3]`. -/
theorem recent_form_score_spec (team_data : List Row) (current_year : ℤ)
    (jitter : ℕ → ℚ) :
    (∀ r ∈ recentRows team_data current_year,
        current_year - 3 ≤ r.season_end_year ∧ r ∈ team_data)
  ∧ ((recentRows team_data current_year).length < 2 →
        calculate_recent_form_score team_data current_year jitter = 0)
  ∧ (2 ≤ (recentRows team_data current_year).length →
      ¬ usesJitter team_data current_year →
        calculate_recent_form_score team_data current_year jitter =
          clampQ (-3) 3
            ((slopeQ (normYears (sortByYear (recentRows team_data current_year)))
                ((sortByYear (recentRows team_data current_year)).map
                  (fun r => r.points)) / 5) * (6 / 10)
              + (-(slopeQ (normYears (sortByYear (recentRows team_data current_year)))
                  ((sortByYear (recentRows team_data current_year)).map
                    (fun r => r.position))) / 2) * (4 / 10)))
  ∧ (-3 ≤ calculate_recent_form_score team_data current_year jitter
      ∧ calculate_recent_form_score team_data current_year jitter ≤ 3) := by
  refine ⟨?_, ?_, ?_, ?_⟩
  · intro r hr
    have := List.mem_filter.1 hr
    exact ⟨by simpa using of_decide_eq_true this.2, this.1⟩
  · intro h
    simp only [calculate_recent_form_score]
    rw [if_pos h]
  · intro hlen hj
    have h2 : ¬ (recentRows team_data current_year).length < 2 := by omega
    have h3 : ¬ (normYears (sortByYear (recentRows team_data
        current_year))).dedup.length < 2 := fun hlt => hj ⟨hlen, hlt⟩
    simp only [calculate_recent_form_score]
    rw [if_neg h2, if_neg h3]
  · by_cases h : (recentRows team_data current_year).length < 2
    · simp only [calculate_recent_form_score]
      rw [if_pos h]
      norm_num
    · simp only [calculate_recent_form_score]
      rw [if_neg h]
      exact ⟨le_clampQ _ _ _, clampQ_le _ (by norm_num)⟩

/-- Concrete input for the C4 counterexample: a team whose two qualifying
recent rows carry the same `season_end_year` (as happens in any bootstrap
resample that duplicates a row), so the jitter branch fires. -/
def tiedYearRows : List Row :=
  [⟨"T", 2023, 0, 0, 0, 0, 0, 0, 0, 1⟩, ⟨"T", 2023, 10, 0, 0, 0, 0, 0, 0, 1⟩]

/-- A resolution of numpy's global RNG for the jitter draws. -/
def jitterA : ℕ → ℚ := fun k => if k = 0 then -(1 / 100) else 1 / 100

/-- A second resolution of numpy's global RNG for the jitter draws. -/
def jitterB : ℕ → ℚ := fun k => if k = 0 then 1 / 100 else -(1 / 100)

/-- C4 counterexample: on two same-year rows (at least two rows, so the claim
requires the score to equal the deterministic slope formula) the code's score
depends on the unseeded random jitter — two admissible RNG draws give `3` and
`−3` — so the score does not equal any function of the rows and reference
year, and in particular not the claimed formula. -/
theorem recent_form_score_jitter_counterexample :
    calculate_recent_form_score tiedYearRows 2024 jitterA = 3
  ∧ calculate_recent_form_score tiedYearRows 2024 jitterB = -3 := by
  constructor <;>
    norm_num [calculate_recent_form_score, recentRows, tiedYearRows, sortByYear,
      normYears, slopeQ, clampQ, jitterA, jitterB, List.insertionSort,
      List.orderedInsert, List.dedup, List.pwFilter, List.enum,
      List.enumFrom, List.filter, List.min?]

/-- Concrete single-row team history used by the C4 witness. -/
def oneRecentRow : List Row := [⟨"U", 2023, 7, 0, 0, 0, 0, 0, 0, 4⟩]

/-- Witness for C4 (amended): evaluating the theorem at a one-row history
(fewer than two qualifying rows) yields exactly `0`, and the bound holds. -/
theorem recent_form_score_spec_witness :
    calculate_recent_form_score oneRecentRow 2024 (fun _ => 0) = 0
  ∧ -3 ≤ calculate_recent_form_score oneRecentRow 2024 (fun _ => 0) := by
  refine ⟨(recent_form_score_spec oneRecentRow 2024 (fun _ => 0)).2.1
    (by decide), ((recent_form_score_spec oneRecentRow 2024
      (fun _ => 0)).2.2.2).1⟩

/-- C2 (amended): whenever every bootstrap iteration is skipped — in
particular for `n_bootstrap = 0` — the estimator fails, but with the numpy
`IndexError` that `np.percentile` raises on the empty prediction list, not
with a dedicated `InsufficientBootstrapSamples` error: no such error exists
anywhere in the source, and `np.mean` has already been evaluated (to `nan`)
on the empty set before the failure. -/
theorem bootstrap_all_skipped_fails {M : Type} (train : List Row → M)
    (predict : M → (Feature → ℝ) → ℝ) (sample : List Row → ℕ → List Row)
    (historical_data team_data : List Row) (prediction_year : ℤ)
    (n_bootstrap : ℕ) (confidence_level : ℝ) (jitter : ℕ → ℕ → ℚ)
    (hempty : collectPreds train predict sample historical_data team_data
        prediction_year n_bootstrap jitter = .ok []) :
    bootstrap_confidence_interval_recent_form train predict sample
        historical_data team_data prediction_year n_bootstrap
        confidence_level jitter = .error .indexError := by
  unfold bootstrap_confidence_interval_recent_form
  rw [hempty]
  rfl

/-- Witness for C2 (amended): a concrete call with `n_bootstrap = 0` (no
iteration runs, so the prediction list is empty) fails with the modelled
`IndexError`. -/
theorem bootstrap_all_skipped_fails_witness :
    bootstrap_confidence_interval_recent_form (fun _ : List Row => ())
        (fun _ _ => (10 : ℝ)) (fun h _ => h)
        [⟨"T", 2000, 1, 1, 1, 0, 1, 0, 0, 5⟩]
        [⟨"T", 2000, 1, 1, 1, 0, 1, 0, 0, 5⟩] 2024 0 (95 / 100)
        (fun _ _ => 0) = .error .indexError :=
  bootstrap_all_skipped_fails _ _ _ _ _ _ _ _ _ rfl

/-- C2 counterexample: calling the estimator with `n_bootstrap = 0` on a
concrete one-row dataset fails with the numpy `IndexError`, which is not the
`InsufficientBootstrapSamples` error the claim requires. -/
theorem insufficient_bootstrap_counterexample :
    bootstrap_confidence_interval_recent_form (fun _ : List Row => ())
        (fun _ _ => (7 : ℝ)) (fun h _ => h)
        [⟨"U", 2001, 2, 1, 1, 0, 1, 0, 0, 6⟩]
        [⟨"U", 2001, 2, 1, 1, 0, 1, 0, 0, 6⟩] 2024 0 (95 / 100)
        (fun _ _ => 0) = .error .indexError
      ∧ PyError.indexError ≠ PyError.insufficientBootstrapSamples :=
  ⟨rfl, by decide⟩

/-! ### Error propagation helpers for C8 -/

theorem except_bind_error {ε σ τ : Type} {x : Except ε σ}
    {f : σ → Except ε τ} {e : ε} (h : x.bind f = .error e) :
    x = .error e ∨ ∃ a, x = .ok a ∧ f a = .error e := by
  cases x with
  | error e2 =>
    left
    simpa [Except.bind] using h
  | ok a =>
    right
    exact ⟨a, rfl, by simpa [Except.bind] using h⟩

theorem bootIter_error_eq {M : Type} (train : List Row → M)
    (predict : M → (Feature → ℝ) → ℝ) (sample : List Row → ℕ → List Row)
    (historical_data team_data : List Row) (prediction_year : ℤ)
    (jitter : ℕ → ℕ → ℚ) (i : ℕ) {e : PyError}
    (h : bootIter train predict sample historical_data team_data
        prediction_year jitter i = .error e) : e = .indexError := by
  cases hh : team_data.head? with
  | none =>
    simp only [bootIter, hh, Except.error.injEq] at h
    exact h.symm
  | some r0 =>
    simp only [bootIter, hh] at h
    split at h <;> simp at h

theorem collectAux_error_eq {M : Type} (train : List Row → M)
    (predict : M → (Feature → ℝ) → ℝ) (sample : List Row → ℕ → List Row)
    (historical_data team_data : List Row) (prediction_year : ℤ)
    (jitter : ℕ → ℕ → ℚ) {e : PyError} :
    ∀ idxs : List ℕ,
      collectAux train predict sample historical_data team_data
          prediction_year jitter idxs = .error e → e = .indexError := by
  intro idxs
  induction idxs with
  | nil => intro h; exact absurd h (by simp [collectAux])
  | cons i is ih =>
    intro h
    unfold collectAux at h
    rcases except_bind_error h with h1 | ⟨o, _, h2⟩
    · exact bootIter_error_eq train predict sample historical_data team_data
        prediction_year jitter i h1
    · rcases except_bind_error h2 with h3 | ⟨rest, _, h4⟩
      · exact ih h3
      · exact absurd h4 (by simp)

theorem bootstrap_ci_error_eq {M : Type} (train : List Row → M)
    (predict : M → (Feature → ℝ) → ℝ) (sample : List Row → ℕ → List Row)
    (historical_data team_data : List Row) (prediction_year : ℤ)
    (n_bootstrap : ℕ) (confidence_level : ℝ) (jitter : ℕ → ℕ → ℚ)
    {e : PyError}
    (h : bootstrap_confidence_interval_recent_form train predict sample
        historical_data team_data prediction_year n_bootstrap
        confidence_level jitter = .error e) : e = .indexError := by
  unfold bootstrap_confidence_interval_recent_form at h
  rcases except_bind_error h with h1 | ⟨preds, _, h2⟩
  · exact collectAux_error_eq train predict sample historical_data team_data
      prediction_year jitter _ h1
  · unfold bootAggregate at h2
    split at h2
    · simp only [Except.error.injEq] at h2
      exact h2.symm
    · exact absurd h2 (by simp)

theorem teamLoop_error_eq {M : Type} (train : List Row → M)
    (predict : M → (Feature → ℝ) → ℝ) (sample : List Row → ℕ → List Row)
    (historical_data : List Row) (prediction_year : ℤ)
    (confidence_level : ℝ) (jb : ℕ → ℕ → ℚ) (jm : ℕ → ℚ) (mainModel : M)
    {e : PyError} :
    ∀ teams : List String,
      teamLoop train predict sample historical_data prediction_year
          confidence_level jb jm mainModel teams = .error e →
        e = .indexError := by
  intro teams
  induction teams with
  | nil => intro h; exact absurd h (by simp [teamLoop])
  | cons t ts ih =>
    intro h
    simp only [teamLoop] at h
    split at h
    · exact ih h
    · rcases except_bind_error h with h1 | ⟨ci, _, h2⟩
      · exact bootstrap_ci_error_eq train predict sample historical_data _
          prediction_year 100 confidence_level jb h1
      · rcases except_bind_error h2 with h3 | ⟨rest, _, h4⟩
        · exact ih h3
        · exact absurd h4 (by simp)

/-- C8: the whole prediction run fails with the dedicated empty-training-set
error (the line-243 `ValueError`, which the spec names `EmptyTrainingSet`)
exactly when no dataset row has `season_end_year` strictly before the
prediction year, in which case no per-team prediction is produced; when the
training slice is nonempty the run never fails with that error. -/
theorem empty_training_set_spec {M : Type} (train : List Row → M)
    (predict : M → (Feature → ℝ) → ℝ) (sample : List Row → ℕ → List Row)
    (data : List Row) (teams : List String)
    (actual_standings : List (String × ℤ)) (prediction_year : ℤ)
    (confidence_level : ℝ) (jb : ℕ → ℕ → ℚ) (jm : ℕ → ℚ) :
    ((data.filter (fun r => r.season_end_year < prediction_year)).length = 0 →
        compare_predictions_with_confidence train predict sample data teams
          actual_standings prediction_year confidence_level jb jm
          = .error .emptyTrainingSet)
  ∧ ((data.filter (fun r => r.season_end_year < prediction_year)).length ≠ 0 →
        compare_predictions_with_confidence train predict sample data teams
          actual_standings prediction_year confidence_level jb jm
          ≠ .error .emptyTrainingSet) := by
  constructor
  · intro h
    unfold compare_predictions_with_confidence
    rw [if_pos h]
  · intro h hcontra
    unfold compare_predictions_with_confidence at hcontra
    rw [if_neg h] at hcontra
    rcases except_bind_error hcontra with h1 | ⟨res, _, h2⟩
    · have := teamLoop_error_eq train predict sample _ prediction_year
        confidence_level jb jm _ teams h1
      exact absurd this (by decide)
    · simp only [] at h2
      split at h2
      · simp only [Except.error.injEq] at h2
        exact absurd h2.symm (by decide)
      · split at h2
        · simp only [Except.error.injEq] at h2
          exact absurd h2.symm (by decide)
        · exact absurd h2 (by simp)

/-- Witness for C8: on the empty dataset the run aborts with the
empty-training-set error, and on a one-row dataset from year 2000 it does
not abort with that error. -/
theorem empty_training_set_spec_witness :
    compare_predictions_with_confidence (fun _ : List Row => ())
        (fun _ _ => (10 : ℝ)) (fun h _ => h) [] ["Arsenal"]
        [("Arsenal", 2)] 2024 (95 / 100) (fun _ _ => 0) (fun _ => 0)
        = .error .emptyTrainingSet
  ∧ compare_predictions_with_confidence (fun _ : List Row => ())
        (fun _ _ => (10 : ℝ)) (fun h _ => h)
        [⟨"Arsenal", 2000, 1, 1, 1, 0, 1, 0, 0, 5⟩] ["Arsenal"]
        [("Arsenal", 2)] 2024 (95 / 100) (fun _ _ => 0) (fun _ => 0)
        ≠ .error .emptyTrainingSet :=
  ⟨(empty_training_set_spec (fun _ : List Row => ()) (fun _ _ => (10 : ℝ))
      (fun h _ => h) [] ["Arsenal"] [("Arsenal", 2)] 2024 (95 / 100)
      (fun _ _ => 0) (fun _ => 0)).1 rfl,
    (empty_training_set_spec (fun _ : List Row => ()) (fun _ _ => (10 : ℝ))
      (fun h _ => h) [⟨"Arsenal", 2000, 1, 1, 1, 0, 1, 0, 0, 5⟩] ["Arsenal"]
      [("Arsenal", 2)] 2024 (95 / 100) (fun _ _ => 0) (fun _ => 0)).2
      (by decide)⟩

/-- C5: every aggregation weight `exp(−year_diff/1.05)` is strictly positive
and strictly decreasing in `year_diff`; each weighted-average feature is a
convex combination of the rows' values (any bound satisfied by all rows'
values bounds the average, hence the average lies within `[min, max]`); and
for a single historical row the weighted average equals that row's value
exactly. -/
theorem weighted_average_convex :
    (∀ d : ℝ, 0 < ageWeight d)
  ∧ (∀ d1 d2 : ℝ, d1 < d2 → ageWeight d2 < ageWeight d1)
  ∧ (∀ (rows : List Row) (y : ℤ) (f : Feature) (B : ℝ), rows ≠ [] →
        ((∀ r ∈ rows, (rowStat f r : ℝ) ≤ B) →
            weightedAvgFeature rows y f ≤ B)
      ∧ ((∀ r ∈ rows, B ≤ (rowStat f r : ℝ)) →
            B ≤ weightedAvgFeature rows y f))
  ∧ (∀ (r : Row) (y : ℤ) (f : Feature),
        weightedAvgFeature [r] y f = (rowStat f r : ℝ)) := by
  refine ⟨fun d => Real.exp_pos _, ?_, ?_, ?_⟩
  · intro d1 d2 h
    unfold ageWeight
    apply Real.exp_lt_exp.mpr
    have h105 : (0 : ℝ) < 1.05 := by norm_num
    have := div_lt_div_of_pos_right h h105
    linarith
  · intro rows y f B hne
    have hW := sum_rowWeight_pos y hne
    constructor
    · intro hub
      unfold weightedAvgFeature
      rw [div_le_iff₀ hW]
      calc (rows.map (fun r => (rowStat f r : ℝ) * rowWeight y r)).sum
          ≤ (rows.map (fun r => B * rowWeight y r)).sum := by
            refine List.sum_le_sum ?_
            intro r hr
            exact mul_le_mul_of_nonneg_right (hub r hr) (Real.exp_pos _).le
        _ = B * (rows.map (rowWeight y)).sum := List.sum_map_mul_left _ _ _
    · intro hlb
      unfold weightedAvgFeature
      rw [le_div_iff₀ hW]
      calc B * (rows.map (rowWeight y)).sum
          = (rows.map (fun r => B * rowWeight y r)).sum :=
            (List.sum_map_mul_left _ _ _).symm
        _ ≤ (rows.map (fun r => (rowStat f r : ℝ) * rowWeight y r)).sum := by
            refine List.sum_le_sum ?_
            intro r hr
            exact mul_le_mul_of_nonneg_right (hlb r hr) (Real.exp_pos _).le
  · intro r y f
    unfold weightedAvgFeature
    simp only [List.map_cons, List.map_nil, List.sum_cons, List.sum_nil,
      add_zero]
    exact mul_div_cancel_right₀ _ (ne_of_gt (Real.exp_pos _))

/-! ### Stable-sort lemmas for C6 -/

theorem filter_orderedInsert_eq {α : Type} [LinearOrder α] (v : α)
    (a : String × α) (ha : a.2 = v) (l : List (String × α)) :
    (l.orderedInsert (fun x y => x.2 ≤ y.2) a).filter
        (fun x => decide (x.2 = v))
      = a :: l.filter (fun x => decide (x.2 = v)) := by
  have hpa : decide (a.2 = v) = true := by simp [ha]
  induction l with
  | nil => simp [List.orderedInsert, List.filter_cons, hpa]
  | cons b t ih =>
    by_cases hab : a.2 ≤ b.2
    · rw [List.orderedInsert, if_pos hab]
      simp [List.filter_cons, hpa]
    · have hb : ¬ b.2 = v := fun h => hab (le_of_eq (ha.trans h.symm))
      have hpb : decide (b.2 = v) = false := by simp [hb]
      rw [List.orderedInsert, if_neg hab]
      simp [List.filter_cons, hpb, ih]

theorem filter_orderedInsert_ne {α : Type} [LinearOrder α] (v : α)
    (a : String × α) (ha : ¬ a.2 = v) (l : List (String × α)) :
    (l.orderedInsert (fun x y => x.2 ≤ y.2) a).filter
        (fun x => decide (x.2 = v))
      = l.filter (fun x => decide (x.2 = v)) := by
  induction l with
  | nil => simp [List.orderedInsert, ha]
  | cons b t ih =>
    by_cases hab : a.2 ≤ b.2
    · simp [List.orderedInsert, hab, List.filter_cons, ha]
    · simp [List.orderedInsert, hab, List.filter_cons, ih]

theorem sortPreds_filter_eq {α : Type} [LinearOrder α]
    (l : List (String × α)) (v : α) :
    (sortPreds l).filter (fun x => decide (x.2 = v))
      = l.filter (fun x => decide (x.2 = v)) := by
  induction l with
  | nil => rfl
  | cons a t ih =>
    simp only [sortPreds, List.insertionSort] at ih ⊢
    by_cases ha : a.2 = v
    · rw [filter_orderedInsert_eq v a ha, ih]
      simp [List.filter_cons, ha]
    · rw [filter_orderedInsert_ne v a ha, ih]
      simp [List.filter_cons, ha]

theorem sortPreds_sorted {α : Type} [LinearOrder α]
    (l : List (String × α)) :
    (sortPreds l).Sorted (fun x y => x.2 ≤ y.2) := by
  haveI : IsTotal (String × α) (fun x y => x.2 ≤ y.2) :=
    ⟨fun a b => le_total a.2 b.2⟩
  haveI : IsTrans (String × α) (fun x y => x.2 ≤ y.2) :=
    ⟨fun a b c hab hbc => le_trans hab hbc⟩
  exact List.sorted_insertionSort _ l

theorem sorted_filter_pair_adjacent {α : Type} [LinearOrder α] {v : α} :
    ∀ {s : List (String × α)}, s.Sorted (fun x y => x.2 ≤ y.2) →
      ∀ {a b : String × α},
        s.filter (fun x => decide (x.2 = v)) = [a, b] →
        ∃ i, s.get? i = some a ∧ s.get? (i + 1) = some b := by
  intro s
  induction s with
  | nil =>
    intro _ a b h
    simp at h
  | cons c t ih =>
    intro hs a b h
    have hct := List.sorted_cons.1 hs
    rw [List.filter_cons] at h
    by_cases hc : c.2 = v
    · rw [if_pos (by simp [hc])] at h
      injection h with h1 h2
      subst h1
      cases t with
      | nil => simp at h2
      | cons d t2 =>
        rw [List.filter_cons] at h2
        by_cases hd : d.2 = v
        · rw [if_pos (by simp [hd])] at h2
          injection h2 with h3 _
          subst h3
          exact ⟨0, rfl, rfl⟩
        · rw [if_neg (by simp [hd])] at h2
          exfalso
          have hbf : b ∈ t2.filter (fun x => decide (x.2 = v)) := by
            rw [h2]; simp
          have hbmem : b ∈ t2 := List.mem_of_mem_filter hbf
          have hbv : b.2 = v := by
            have := (List.mem_filter.1 hbf).2
            simpa using this
          have hcd : c.2 ≤ d.2 := hct.1 d (by simp)
          have hdt := List.sorted_cons.1 hct.2
          have hdb : d.2 ≤ b.2 := hdt.1 b hbmem
          exact hd (le_antisymm (hbv ▸ hdb) (hc ▸ hcd))
    · rw [if_neg (by simp [hc])] at h
      obtain ⟨i, h1, h2⟩ := ih hct.2 h
      exact ⟨i + 1, by simpa using h1, by simpa using h2⟩

theorem assignRanks_ranks {α : Type} [LinearOrder α]
    (l : List (String × α)) :
    (assignRanks l).map (fun x => x.2) = List.range' 1 l.length := by
  unfold assignRanks
  rw [List.map_map]
  have h1 : ((fun x : String × ℕ => x.2)
        ∘ (fun q : ℕ × (String × α) => (q.2.1, q.1 + 1)))
      = (fun i => i + 1) ∘ Prod.fst := rfl
  rw [h1, ← List.map_map]
  have h3 : (sortPreds l).enum.map Prod.fst
      = List.range (sortPreds l).length := by simp
  have h4 : (sortPreds l).length = l.length :=
    (List.perm_insertionSort _ l).length_eq
  rw [h3, h4, List.range'_eq_map_range]
  simp [Nat.add_comm]

theorem assignRanks_teams {α : Type} [LinearOrder α]
    (l : List (String × α)) :
    (assignRanks l).map (fun x => x.1)
      = (sortPreds l).map (fun x => x.1) := by
  unfold assignRanks
  rw [List.map_map]
  have h1 : ((fun x : String × ℕ => x.1)
        ∘ (fun q : ℕ × (String × α) => (q.2.1, q.1 + 1)))
      = (fun x : String × α => x.1) ∘ Prod.snd := rfl
  rw [h1, ← List.map_map]
  congr 1
  simp

theorem pair_mem_assignRanks {α : Type} [LinearOrder α]
    {l : List (String × α)} {i : ℕ} {x : String × α}
    (h : (sortPreds l).get? i = some x) :
    (x.1, i + 1) ∈ assignRanks l := by
  unfold assignRanks
  have hmem : (i, x) ∈ (sortPreds l).enum := by
    rw [List.mk_mem_enum_iff_getElem?, ← List.get?_eq_getElem?]
    exact h
  exact List.mem_map.2 ⟨(i, x), hmem, rfl⟩

/-- C6: for every list of per-team adjusted predictions, the assembled ranks
are exactly `1..K` in output order (no duplicates, no gaps); the output order
is ascending in adjusted position; the sorted list is a permutation of the
input; the sort is stable (entries with any fixed adjusted position keep
their input order); and two teams tied at an identical adjusted position
receive consecutive distinct ranks `r`, `r+1`, the earlier input entry
getting the smaller rank. -/
theorem assign_ranks_spec {α : Type} [LinearOrder α]
    (l : List (String × α)) :
    (assignRanks l).map (fun x => x.2) = List.range' 1 l.length
  ∧ (sortPreds l).Sorted (fun x y => x.2 ≤ y.2)
  ∧ (assignRanks l).map (fun x => x.1) = (sortPreds l).map (fun x => x.1)
  ∧ (sortPreds l).Perm l
  ∧ (∀ v : α, (sortPreds l).filter (fun x => decide (x.2 = v))
        = l.filter (fun x => decide (x.2 = v)))
  ∧ (∀ (v : α) (a b : String × α),
        l.filter (fun x => decide (x.2 = v)) = [a, b] →
        ∃ r, (a.1, r) ∈ assignRanks l ∧ (b.1, r + 1) ∈ assignRanks l) := by
  refine ⟨assignRanks_ranks l, sortPreds_sorted l, assignRanks_teams l,
    List.perm_insertionSort _ l, fun v => sortPreds_filter_eq l v, ?_⟩
  intro v a b hf
  have hfs : (sortPreds l).filter (fun x => decide (x.2 = v)) = [a, b] := by
    rw [sortPreds_filter_eq]
    exact hf
  obtain ⟨i, h1, h2⟩ := sorted_filter_pair_adjacent (sortPreds_sorted l) hfs
  exact ⟨i + 1, pair_mem_assignRanks h1, pair_mem_assignRanks h2⟩

/-- Witness for C6: three teams, two of them tied at adjusted position `5`;
the ranks come out as `1, 2, 3` and the tied pair receives consecutive ranks
in input order. -/
theorem assign_ranks_spec_witness :
    (assignRanks [("A", (5 : ℚ)), ("B", 5), ("C", 1)]).map (fun x => x.2)
        = List.range' 1 3
  ∧ ∃ r, ("A", r) ∈ assignRanks [("A", (5 : ℚ)), ("B", 5), ("C", 1)]
        ∧ ("B", r + 1) ∈ assignRanks [("A", (5 : ℚ)), ("B", 5), ("C", 1)] :=
  ⟨(assign_ranks_spec [("A", (5 : ℚ)), ("B", 5), ("C", 1)]).1,
    (assign_ranks_spec [("A", (5 : ℚ)), ("B", 5), ("C", 1)]).2.2.2.2.2 5
      ("A", 5) ("B", 5) (by decide)⟩

/-- C7: in every cross-validation fold, every training row satisfies
`season_end_year ≤ train_end`, and neither the fold's trained model nor any
test team's feature rows, feature vector, or recent-form input change when
rows from after the training boundary are appended to the dataset: a fold's
training is a function of the `≤ train_end` slice only (no
future-information leakage). -/
theorem cv_no_future_leakage {M : Type} (train : List Row → M)
    (data extra : List Row) (p : Period) (hp : p ∈ cvPeriods) :
    (∀ r ∈ foldTrain data p, r.season_end_year ≤ p.train_end)
  ∧ ((∀ r ∈ extra, p.train_end < r.season_end_year) →
        foldTrain (data ++ extra) p = foldTrain data p
      ∧ foldModel train (data ++ extra) p = foldModel train data p
      ∧ (∀ t, foldTeamHist (data ++ extra) p t = foldTeamHist data p t)
      ∧ (∀ t yr, foldTeamVec (data ++ extra) p t yr = foldTeamVec data p t yr)
      ∧ (∀ t yr jitter,
            calculate_recent_form_score (foldTeamHist (data ++ extra) p t)
                yr jitter
              = calculate_recent_form_score (foldTeamHist data p t) yr
                  jitter)) := by
  have _ := hp
  refine ⟨?_, fun hext => ?_⟩
  · intro r hr
    have hm := List.mem_filter.1 hr
    simpa using of_decide_eq_true hm.2
  · have key : foldTrain (data ++ extra) p = foldTrain data p := by
      unfold foldTrain
      rw [List.filter_append]
      have hnil : extra.filter
          (fun r => decide (r.season_end_year ≤ p.train_end)) = [] := by
        rw [List.filter_eq_nil_iff]
        intro r hr
        simp only [decide_eq_true_eq]
        exact not_le.2 (hext r hr)
      rw [hnil, List.append_nil]
    refine ⟨key, ?_, fun t => ?_, fun t yr => ?_, fun t yr j => ?_⟩
    · unfold foldModel
      rw [key]
    · unfold foldTeamHist
      rw [key]
    · unfold foldTeamVec foldTeamHist
      rw [key]
    · unfold foldTeamHist
      rw [key]

/-- Witness for C7: the first hardcoded fold boundary (train through 2013)
evaluated on concrete data: a 2010 row is kept, and appending a 2020 row
changes neither the training slice nor the trained model. -/
theorem cv_no_future_leakage_witness :
    ((⟨"T", 2010, 1, 1, 1, 0, 1, 0, 0, 5⟩ : Row).season_end_year ≤ 2013)
  ∧ foldTrain ([⟨"T", 2010, 1, 1, 1, 0, 1, 0, 0, 5⟩]
        ++ [⟨"T", 2020, 9, 9, 9, 0, 9, 0, 0, 1⟩]) ⟨2013, 2014, 2016⟩
      = foldTrain [⟨"T", 2010, 1, 1, 1, 0, 1, 0, 0, 5⟩] ⟨2013, 2014, 2016⟩
  ∧ foldModel (fun rows : List Row => rows.length)
        ([⟨"T", 2010, 1, 1, 1, 0, 1, 0, 0, 5⟩]
          ++ [⟨"T", 2020, 9, 9, 9, 0, 9, 0, 0, 1⟩]) ⟨2013, 2014, 2016⟩
      = foldModel (fun rows : List Row => rows.length)
          [⟨"T", 2010, 1, 1, 1, 0, 1, 0, 0, 5⟩] ⟨2013, 2014, 2016⟩ := by
  have h := cv_no_future_leakage (fun rows : List Row => rows.length)
    [⟨"T", 2010, 1, 1, 1, 0, 1, 0, 0, 5⟩]
    [⟨"T", 2020, 9, 9, 9, 0, 9, 0, 0, 1⟩] ⟨2013, 2014, 2016⟩ (by decide)
  have h2 := h.2 (by decide)
  exact ⟨h.1 ⟨"T", 2010, 1, 1, 1, 0, 1, 0, 0, 5⟩ (by decide), h2.1, h2.2.1⟩

/-! ### Jitter-independence lemmas for C9 -/

theorem recent_form_score_jitter_indep (team_data : List Row)
    (current_year : ℤ) (h : ¬ usesJitter team_data current_year)
    (j1 j2 : ℕ → ℚ) :
    calculate_recent_form_score team_data current_year j1
      = calculate_recent_form_score team_data current_year j2 := by
  simp only [calculate_recent_form_score]
  by_cases hl : (recentRows team_data current_year).length < 2
  · rw [if_pos hl, if_pos hl]
  · have hd : ¬ (normYears (sortByYear (recentRows team_data
        current_year))).dedup.length < 2 :=
      fun hlt => h ⟨Nat.le_of_not_lt hl, hlt⟩
    rw [if_neg hl, if_neg hl, if_neg hd, if_neg hd]

theorem bootIter_jitter_indep {M : Type} (train : List Row → M)
    (predict : M → (Feature → ℝ) → ℝ) (sample : List Row → ℕ → List Row)
    (historical_data team_data : List Row) (prediction_year : ℤ) (i : ℕ)
    (h : ¬ usesJitter (bootTeamRows sample historical_data team_data i)
        prediction_year) (j1 j2 : ℕ → ℕ → ℚ) :
    bootIter train predict sample historical_data team_data prediction_year
        j1 i
      = bootIter train predict sample historical_data team_data
          prediction_year j2 i := by
  cases hh : team_data.head? with
  | none => simp only [bootIter, hh]
  | some r0 =>
    simp only [bootIter, hh]
    split
    · rfl
    · rw [recent_form_score_jitter_indep _ _ h (j1 i) (j2 i)]

theorem collectAux_jitter_indep {M : Type} (train : List Row → M)
    (predict : M → (Feature → ℝ) → ℝ) (sample : List Row → ℕ → List Row)
    (historical_data team_data : List Row) (prediction_year : ℤ)
    (j1 j2 : ℕ → ℕ → ℚ) :
    ∀ idxs : List ℕ,
      (∀ i ∈ idxs,
        ¬ usesJitter (bootTeamRows sample historical_data team_data i)
          prediction_year) →
      collectAux train predict sample historical_data team_data
          prediction_year j1 idxs
        = collectAux train predict sample historical_data team_data
            prediction_year j2 idxs := by
  intro idxs
  induction idxs with
  | nil => intro _; rfl
  | cons i is ih =>
    intro hall
    unfold collectAux
    rw [bootIter_jitter_indep train predict sample historical_data team_data
      prediction_year i (hall i (by simp)) j1 j2,
      ih (fun k hk => hall k (by simp [hk]))]

/-- C9 (amended): the confidence estimation is reproducible — independent of
the state of numpy's global RNG — provided no bootstrap iteration triggers
the trend fit's jitter branch (the target team's resampled recent rows never
collapse onto a single season year); the resample seeds (iteration index)
and the constant model seed are deterministic by construction.  When the
jitter branch is triggered the result is *not* reproducible (see the
counterexample). -/
theorem bootstrap_reproducible_without_jitter {M : Type}
    (train : List Row → M) (predict : M → (Feature → ℝ) → ℝ)
    (sample : List Row → ℕ → List Row)
    (historical_data team_data : List Row) (prediction_year : ℤ)
    (n_bootstrap : ℕ) (confidence_level : ℝ)
    (h : ∀ i < n_bootstrap,
      ¬ usesJitter (bootTeamRows sample historical_data team_data i)
        prediction_year)
    (rng1 rng2 : ℕ → ℕ → ℚ) :
    bootstrap_confidence_interval_recent_form train predict sample
        historical_data team_data prediction_year n_bootstrap
        confidence_level rng1
      = bootstrap_confidence_interval_recent_form train predict sample
          historical_data team_data prediction_year n_bootstrap
          confidence_level rng2 := by
  unfold bootstrap_confidence_interval_recent_form collectPreds
  rw [collectAux_jitter_indep train predict sample historical_data team_data
    prediction_year rng1 rng2 (List.range n_bootstrap)
    (fun i hi => h i (List.mem_range.1 hi))]

/-- Witness for C9 (amended): a full one-iteration bootstrap run over a team
whose resampled rows span two distinct recent season years (2022 and 2023),
so the no-jitter hypothesis holds non-vacuously and is discharged by
evaluating `usesJitter` on the iteration's resampled team rows: two
different global-RNG streams yield identical confidence intervals. -/
theorem bootstrap_reproducible_without_jitter_witness :
    bootstrap_confidence_interval_recent_form (fun _ : List Row => ())
        (fun _ _ => (10 : ℝ)) (fun h _ => h)
        [⟨"W", 2022, 3, 2, 1, 1, 1, 0, 0, 8⟩,
          ⟨"W", 2023, 5, 4, 2, 2, 1, 1, 0, 6⟩]
        [⟨"W", 2022, 3, 2, 1, 1, 1, 0, 0, 8⟩,
          ⟨"W", 2023, 5, 4, 2, 2, 1, 1, 0, 6⟩] 2024 1 (95 / 100)
        (fun _ k => (k : ℚ) + 1)
      = bootstrap_confidence_interval_recent_form (fun _ : List Row => ())
          (fun _ _ => (10 : ℝ)) (fun h _ => h)
          [⟨"W", 2022, 3, 2, 1, 1, 1, 0, 0, 8⟩,
            ⟨"W", 2023, 5, 4, 2, 2, 1, 1, 0, 6⟩]
          [⟨"W", 2022, 3, 2, 1, 1, 1, 0, 0, 8⟩,
            ⟨"W", 2023, 5, 4, 2, 2, 1, 1, 0, 6⟩] 2024 1 (95 / 100)
          (fun _ _ => 5) :=
  bootstrap_reproducible_without_jitter (fun _ : List Row => ())
    (fun _ _ => (10 : ℝ)) (fun h _ => h)
    [⟨"W", 2022, 3, 2, 1, 1, 1, 0, 0, 8⟩,
      ⟨"W", 2023, 5, 4, 2, 2, 1, 1, 0, 6⟩]
    [⟨"W", 2022, 3, 2, 1, 1, 1, 0, 0, 8⟩,
      ⟨"W", 2023, 5, 4, 2, 2, 1, 1, 0, 6⟩] 2024 1 (95 / 100)
    (by
      intro i hi
      have h0 : i = 0 := by omega
      subst h0
      decide)
    (fun _ k => (k : ℚ) + 1) (fun _ _ => 5)

/-- Concrete dataset for the C9 counterexample: one team whose two rows carry
the same season year, as produced by any bootstrap resample that draws a row
twice. -/
def dupYearRows : List Row :=
  [⟨"D", 2023, 0, 0, 0, 0, 0, 0, 0, 1⟩, ⟨"D", 2023, 10, 0, 0, 0, 0, 0, 0, 1⟩]

/-- One resolution of numpy's global RNG across bootstrap iterations. -/
def rngA : ℕ → ℕ → ℚ := fun _ k => if k = 0 then -(1 / 100) else 1 / 100

/-- A second resolution of numpy's global RNG across bootstrap iterations. -/
def rngB : ℕ → ℕ → ℚ := fun _ k => if k = 0 then 1 / 100 else -(1 / 100)

theorem mean_singleton (x : ℝ) : mean [x] = x := by
  simp [mean]

theorem percentileT_singleton (x q : ℝ) : percentileT [x] q = x := by
  unfold percentileT
  have hs : sortedVals [x] = [x] := rfl
  rw [hs, show (q / 100 * ((([x] : List ℝ).length : ℝ) - 1)) = ((0 : ℕ) : ℝ)
    by simp, interpAt_natCast]
  rfl

/-- C9 counterexample: with identical dataset, team, prediction year,
bootstrap count, confidence level and resampling, two runs of the estimator
under two admissible states of numpy's unseeded global RNG return different
confidence intervals (`9.85` versus `10.15` everywhere), because the
resampled team rows collapse onto one season year and the trend fit draws
jitter from shared global state.  So `estimate_confidence` is not a function
of its inputs and the claimed run-to-run reproducibility fails. -/
theorem bootstrap_not_reproducible_counterexample :
    bootstrap_confidence_interval_recent_form (fun _ : List Row => ())
        (fun _ _ => (10 : ℝ)) (fun h _ => h) dupYearRows dupYearRows 2024 1
        (95 / 100) rngA
      ≠ bootstrap_confidence_interval_recent_form (fun _ : List Row => ())
          (fun _ _ => (10 : ℝ)) (fun h _ => h) dupYearRows dupYearRows 2024 1
          (95 / 100) rngB := by
  have h_tb : bootTeamRows (fun (h : List Row) (_ : ℕ) => h) dupYearRows
      dupYearRows 0 = dupYearRows := by decide
  have hformA : calculate_recent_form_score dupYearRows 2024 (rngA 0) = 3 := by
    norm_num [calculate_recent_form_score, recentRows, dupYearRows, sortByYear,
      normYears, slopeQ, clampQ, rngA, List.insertionSort, List.orderedInsert,
      List.dedup, List.pwFilter, List.enum, List.enumFrom, List.filter,
      List.min?]
  have hformB : calculate_recent_form_score dupYearRows 2024 (rngB 0)
      = -3 := by
    norm_num [calculate_recent_form_score, recentRows, dupYearRows, sortByYear,
      normYears, slopeQ, clampQ, rngB, List.insertionSort, List.orderedInsert,
      List.dedup, List.pwFilter, List.enum, List.enumFrom, List.filter,
      List.min?]
  have hh : dupYearRows.head? = some ⟨"D", 2023, 0, 0, 0, 0, 0, 0, 0, 1⟩ := rfl
  have hiterA : bootIter (fun _ : List Row => ()) (fun _ _ => (10 : ℝ))
      (fun h _ => h) dupYearRows dupYearRows 2024 rngA 0
      = .ok (some (adjustPrediction 10 (((3 : ℚ)) : ℝ))) := by
    simp only [bootIter, hh, h_tb]
    rw [if_neg (by decide : ¬ dupYearRows.length = 0), hformA]
    rfl
  have hiterB : bootIter (fun _ : List Row => ()) (fun _ _ => (10 : ℝ))
      (fun h _ => h) dupYearRows dupYearRows 2024 rngB 0
      = .ok (some (adjustPrediction 10 ((((-3) : ℚ)) : ℝ))) := by
    simp only [bootIter, hh, h_tb]
    rw [if_neg (by decide : ¬ dupYearRows.length = 0), hformB]
    rfl
  have hA : bootstrap_confidence_interval_recent_form (fun _ : List Row => ())
      (fun _ _ => (10 : ℝ)) (fun h _ => h) dupYearRows dupYearRows 2024 1
      (95 / 100) rngA
      = .ok { prediction := adjustPrediction 10 (((3 : ℚ)) : ℝ)
              lower_bound := adjustPrediction 10 (((3 : ℚ)) : ℝ)
              upper_bound := adjustPrediction 10 (((3 : ℚ)) : ℝ)
              confidence_level := 95 / 100 } := by
    unfold bootstrap_confidence_interval_recent_form collectPreds
    rw [show List.range 1 = [0] from rfl]
    unfold collectAux
    rw [hiterA]
    show bootAggregate [adjustPrediction 10 (((3 : ℚ)) : ℝ)]
        ((95 : ℝ) / 100) = _
    simp only [bootAggregate]
    rw [mean_singleton, percentileT_singleton, percentileT_singleton]
  have hB : bootstrap_confidence_interval_recent_form (fun _ : List Row => ())
      (fun _ _ => (10 : ℝ)) (fun h _ => h) dupYearRows dupYearRows 2024 1
      (95 / 100) rngB
      = .ok { prediction := adjustPrediction 10 ((((-3) : ℚ)) : ℝ)
              lower_bound := adjustPrediction 10 ((((-3) : ℚ)) : ℝ)
              upper_bound := adjustPrediction 10 ((((-3) : ℚ)) : ℝ)
              confidence_level := 95 / 100 } := by
    unfold bootstrap_confidence_interval_recent_form collectPreds
    rw [show List.range 1 = [0] from rfl]
    unfold collectAux
    rw [hiterB]
    show bootAggregate [adjustPrediction 10 ((((-3) : ℚ)) : ℝ)]
        ((95 : ℝ) / 100) = _
    simp only [bootAggregate]
    rw [mean_singleton, percentileT_singleton, percentileT_singleton]
  have hpA : adjustPrediction 10 (((3 : ℚ)) : ℝ) = 9.85 := by
    unfold adjustPrediction
    rw [show (((3 : ℚ)) : ℝ) = 3 by norm_num,
      show (10 : ℝ) + -3 * (5 / 100) = 9.85 by norm_num,
      min_eq_right (by norm_num : (9.85 : ℝ) ≤ 20),
      max_eq_right (by norm_num : (1 : ℝ) ≤ 9.85)]
  have hpB : adjustPrediction 10 ((((-3) : ℚ)) : ℝ) = 10.15 := by
    unfold adjustPrediction
    rw [show ((((-3) : ℚ)) : ℝ) = -3 by norm_num,
      show (10 : ℝ) + -(-3) * (5 / 100) = 10.15 by norm_num,
      min_eq_right (by norm_num : (10.15 : ℝ) ≤ 20),
      max_eq_right (by norm_num : (1 : ℝ) ≤ 10.15)]
  rw [hA, hB, hpA, hpB]
  intro hcontra
  simp only [Except.ok.injEq, CI.mk.injEq] at hcontra
  have : (9.85 : ℝ) = 10.15 := hcontra.1
  norm_num at this

/-- Concrete row used by the C5 witness. -/
def wRow : Row := ⟨"T", 2023, 10, 0, 0, 0, 0, 0, 0, 1⟩

/-- Witness for C5: the weight facts at concrete ages, and the convex bound
and single-row exactness evaluated on a concrete one-row history. -/
theorem weighted_average_convex_witness :
    0 < ageWeight 0
  ∧ ageWeight 1 < ageWeight 0
  ∧ weightedAvgFeature [wRow] 2024 .points ≤ 10
  ∧ weightedAvgFeature [wRow] 2024 .points = ((10 : ℚ) : ℝ) := by
  refine ⟨weighted_average_convex.1 0,
    weighted_average_convex.2.1 0 1 (by norm_num), ?_, ?_⟩
  · refine (weighted_average_convex.2.2.1 [wRow] 2024 .points 10
      (by simp)).1 ?_
    intro r hr
    have : r = wRow := by simpa using hr
    subst this
    norm_num [rowStat, wRow]
  · exact weighted_average_convex.2.2.2 wRow 2024 .points

end PLPredictor
